import Mathlib

/-!
Verification of the pagination example repository.

The repository contains a page-window calculator (`getPageNumbers` in
`pagination.tsx`), a paged data-source client (`getBlogPosts` in `page.tsx`),
an infinite-scroll loader (`loadMorePosts` in `blog-post.tsx`), a navigation
handler (`navigateToPage` in `pagination.tsx`), a display-style toggle
(`togglePaginationStyle` in `pagination-toggle.tsx`) and URL-parameter
extraction in `PaginationExample` (`page.tsx`).  Each is embedded below as a
pure Lean function; JavaScript numbers occurring in these code paths are
integers (or NaN, modelled explicitly where it can arise), so `Int`/`Nat`
model them exactly.
-/

/-- Helper: `rangeListAux n a` is `[a, a+1, ..., a+n-1]`, `n` consecutive integers. -/
def rangeListAux : Nat → Int → List Int
  | 0, _ => []
  | n + 1, a => a :: rangeListAux n (a + 1)

/-- The ascending integer list `[a, a+1, ..., b]` (empty when `b < a`).
This is the value accumulated by the loop
`for (let i = a; i <= b; i++) pages.push(i)` in `getPageNumbers`. -/
def rangeList (a b : Int) : List Int :=
  rangeListAux (b + 1 - a).toNat a

/-- From `pagination.tsx`, `getPageNumbers`: token list for the page window.
`-1` and `-2` encode the two distinctly-keyed ellipsis markers; every other
token is a page number. -/
def getPageNumbers (currentPage totalPages : Int) : List Int :=
  [1]
    ++ (if currentPage > 4 then [-1] else [])
    ++ rangeList (max 2 (currentPage - 2)) (min (totalPages - 1) (currentPage + 2))
    ++ (if currentPage < totalPages - 3 then [-2] else [])
    ++ (if totalPages > 1 then [totalPages] else [])

theorem mem_rangeListAux {x : Int} (n : Nat) (a : Int) :
    x ∈ rangeListAux n a ↔ a ≤ x ∧ x < a + n := by
  induction n generalizing a with
  | zero => simp [rangeListAux]
  | succ n ih =>
    simp only [rangeListAux, List.mem_cons, ih]
    omega

theorem mem_rangeList {x : Int} (a b : Int) : x ∈ rangeList a b ↔ a ≤ x ∧ x ≤ b := by
  unfold rangeList
  rw [mem_rangeListAux]
  omega

theorem nodup_rangeListAux (n : Nat) (a : Int) : (rangeListAux n a).Nodup := by
  induction n generalizing a with
  | zero => simp [rangeListAux]
  | succ n ih =>
    simp only [rangeListAux, List.nodup_cons, mem_rangeListAux]
    exact ⟨by omega, ih _⟩

theorem nodup_rangeList (a b : Int) : (rangeList a b).Nodup :=
  nodup_rangeListAux _ _

/-- Membership characterisation of the page-window token list. -/
theorem mem_getPageNumbers (x cp tp : Int) :
    x ∈ getPageNumbers cp tp ↔
      x = 1 ∨ (4 < cp ∧ x = -1) ∨
      (max 2 (cp - 2) ≤ x ∧ x ≤ min (tp - 1) (cp + 2)) ∨
      (cp < tp - 3 ∧ x = -2) ∨ (1 < tp ∧ x = tp) := by
  by_cases h1 : 4 < cp <;> by_cases h2 : cp < tp - 3 <;> by_cases h3 : 1 < tp <;>
    simp [getPageNumbers, h1, h2, h3, mem_rangeList]

theorem count_rangeListAux (x : Int) (n : Nat) (a : Int) :
    (rangeListAux n a).count x = if a ≤ x ∧ x < a + n then 1 else 0 := by
  induction n generalizing a with
  | zero =>
    simp only [rangeListAux, List.count_nil]
    rw [if_neg (by omega)]
  | succ n ih =>
    simp only [rangeListAux, List.count_cons, ih, beq_iff_eq]
    split_ifs <;> omega

theorem count_rangeList (x a b : Int) :
    (rangeList a b).count x = if a ≤ x ∧ x ≤ b then 1 else 0 := by
  unfold rangeList
  rw [count_rangeListAux]
  by_cases h : a ≤ x ∧ x ≤ b
  · rw [if_pos (show a ≤ x ∧ x < a + ((b + 1 - a).toNat : Int) from by omega), if_pos h]
  · rw [if_neg (show ¬(a ≤ x ∧ x < a + ((b + 1 - a).toNat : Int)) from by omega), if_neg h]

/-- The token list never repeats a token: the numeric range is clamped to
`[2, totalPages - 1]`, so it meets neither the fixed endpoints `1` and
`totalPages` nor the negative ellipsis markers. -/
theorem nodup_getPageNumbers (cp tp : Int) : (getPageNumbers cp tp).Nodup := by
  rw [List.nodup_iff_count_le_one]
  intro x
  simp only [getPageNumbers, List.count_append]
  split_ifs <;>
    simp only [List.count_cons, List.count_nil, count_rangeList, beq_iff_eq] <;>
    split_ifs <;> omega

/-- C1: for every `totalPages ≥ 1` and `1 ≤ currentPage ≤ totalPages`, the
output of the page-window calculator contains the numeric token `1`, and when
`totalPages > 1` it also contains the numeric token `totalPages`. -/
theorem getPageNumbers_includes_first_and_last (cp tp : Int)
    (_htp : 1 ≤ tp) (_hcp1 : 1 ≤ cp) (_hcp2 : cp ≤ tp) :
    1 ∈ getPageNumbers cp tp ∧ (1 < tp → tp ∈ getPageNumbers cp tp) := by
  constructor
  · rw [mem_getPageNumbers]
    left
    rfl
  · intro h
    rw [mem_getPageNumbers]
    exact Or.inr (Or.inr (Or.inr (Or.inr ⟨h, rfl⟩)))

theorem getPageNumbers_includes_first_and_last_witness :
    (1 : Int) ≤ 10 ∧ (1 : Int) ≤ 5 ∧ (5 : Int) ≤ 10 ∧
    (1 ∈ getPageNumbers 5 10 ∧ ((1 : Int) < 10 → 10 ∈ getPageNumbers 5 10)) :=
  ⟨by decide, by decide, by decide,
    getPageNumbers_includes_first_and_last 5 10 (by decide) (by decide) (by decide)⟩

/-- C3 (counterexample to the claim): there is no input with
`totalPages ≥ 1` and `1 ≤ currentPage ≤ totalPages` at which the calculator
emits the same numeric page token twice. -/
theorem getPageNumbers_no_duplicate_exists :
    ¬ ∃ tp cp : Int, 1 ≤ tp ∧ 1 ≤ cp ∧ cp ≤ tp ∧
      ∃ x : Int, 0 < x ∧ 2 ≤ (getPageNumbers cp tp).count x := by
  rintro ⟨tp, cp, -, -, -, x, -, hx⟩
  have h := List.nodup_iff_count_le_one.mp (nodup_getPageNumbers cp tp) x
  omega

/-- C3 (amended): for every `totalPages ≥ 1` and
`1 ≤ currentPage ≤ totalPages`, the output contains no token twice — the
numeric-range step is clamped to `[2, totalPages − 1]`, so it never overlaps
the fixed first/last tokens and no deduplication is needed. -/
theorem getPageNumbers_nodup (cp tp : Int)
    (_htp : 1 ≤ tp) (_hcp1 : 1 ≤ cp) (_hcp2 : cp ≤ tp) :
    (getPageNumbers cp tp).Nodup :=
  nodup_getPageNumbers cp tp

theorem getPageNumbers_nodup_witness :
    (1 : Int) ≤ 3 ∧ (1 : Int) ≤ 2 ∧ (2 : Int) ≤ 3 ∧ (getPageNumbers 2 3).Nodup :=
  ⟨by decide, by decide, by decide, getPageNumbers_nodup 2 3 (by decide) (by decide) (by decide)⟩

/-- C4: for every `totalPages ≥ 1` and `1 ≤ currentPage ≤ totalPages`, if
`currentPage ≤ 4` the output has no leading ellipsis marker (`-1`), and if
`currentPage ≥ totalPages − 3` it has no trailing ellipsis marker (`-2`). -/
theorem getPageNumbers_no_spurious_ellipsis (cp tp : Int)
    (_htp : 1 ≤ tp) (hcp1 : 1 ≤ cp) (hcp2 : cp ≤ tp) :
    (cp ≤ 4 → -1 ∉ getPageNumbers cp tp) ∧
    (tp - 3 ≤ cp → -2 ∉ getPageNumbers cp tp) := by
  constructor <;> intro h hmem <;> rw [mem_getPageNumbers] at hmem <;> omega

theorem getPageNumbers_no_spurious_ellipsis_witness :
    (1 : Int) ≤ 5 ∧ (1 : Int) ≤ 2 ∧ (2 : Int) ≤ 5 ∧
    (((2 : Int) ≤ 4 → -1 ∉ getPageNumbers 2 5) ∧
      ((5 : Int) - 3 ≤ 2 → -2 ∉ getPageNumbers 2 5)) :=
  ⟨by decide, by decide, by decide,
    getPageNumbers_no_spurious_ellipsis 2 5 (by decide) (by decide) (by decide)⟩

/-- C5: the calculator returns exactly the example outputs of the spec, with `-1`
and `-2` standing for the two ellipsis markers: `(10, 5) ↦
[1, …, 3, 4, 5, 6, 7, …, 10]`, `(3, 2) ↦ [1, 2, 3]` with no ellipses, and
`(1, 1) ↦ [1]` with no ellipses. -/
theorem getPageNumbers_examples :
    getPageNumbers 5 10 = [1, -1, 3, 4, 5, 6, 7, -2, 10] ∧
    getPageNumbers 2 3 = [1, 2, 3] ∧
    getPageNumbers 1 1 = [1] ∧
    -1 ∉ getPageNumbers 2 3 ∧ -2 ∉ getPageNumbers 2 3 ∧
    -1 ∉ getPageNumbers 1 1 ∧ -2 ∉ getPageNumbers 1 1 := by
  decide

/-- An item as fetched from the posts endpoint (`Post` in `page.tsx`). -/
structure Post where
  id : Nat
  title : String
  body : String
deriving DecidableEq

/-- Type `PostResponse` in `page.tsx`: one page of items plus the server-reported
totals. -/
structure PostResponse where
  posts : List Post
  total : Nat
  limit : Nat
  skip : Nat
deriving DecidableEq

/-- The client state of `BlogPost` in `blog-post.tsx` that the infinite-scroll
path reads and writes: the accumulated `posts`, the `isLoading` flag and the
`page` counter. -/
structure LoaderState where
  posts : List Post
  isLoading : Bool
  page : Nat
deriving DecidableEq

/-- The remote source holding the item collection `db`: a request with
`limit` and `skip` returns the items at zero-based offsets
`[skip, skip + limit)`, clipped to the collection. -/
def serverFetch (db : List Post) (limit skip : Nat) : List Post :=
  (db.drop skip).take limit

/-- From `blog-post.tsx` line 400: `const skip = nextPage * limit - limit`.  In
every reachable loader state `nextPage ≥ 1`, so `limit ≤ nextPage * limit`
and `Nat` subtraction agrees with JavaScript subtraction here. -/
def loadMoreSkip (nextPage limit : Nat) : Nat := nextPage * limit - limit

/-- From `blog-post.tsx`, `loadMorePosts`, with the asynchronous fetch resolved
synchronously and successfully.  Returns the next state together with the
`(limit, skip)` of the fetch it issued, or `none` when the guard
`isLoading || posts.length >= totalItems` suppressed the fetch (in which case
the state is untouched).  `isLoading` is set on entry and cleared in the
`finally` block, so the completed step leaves it `false`. -/
def loadMorePosts (fetch : Nat → Nat → List Post) (totalItems limit : Nat)
    (s : LoaderState) : LoaderState × Option (Nat × Nat) :=
  if s.isLoading = true ∨ s.posts.length ≥ totalItems then (s, none)
  else
    let nextPage := s.page + 1
    let skip := loadMoreSkip nextPage limit
    let newPosts := fetch limit skip
    ({ posts := s.posts ++ newPosts, isLoading := false, page := nextPage },
      some (limit, skip))

/-- Initial client state in infinite mode when the server rendered page 1:
`useState(data.posts)`, `useState(false)`, `useState(1)` with
`data = getBlogPosts(limit, 1)`, i.e. the first `limit` items. -/
def initialState (db : List Post) (limit : Nat) : LoaderState :=
  { posts := serverFetch db limit 0, isLoading := false, page := 1 }

/-- The loader state after `n` visibility triggers, each resolved against the
collection `db`. -/
def runLoads (db : List Post) (totalItems limit : Nat) : Nat → LoaderState
  | 0 => initialState db limit
  | n + 1 => (loadMorePosts (serverFetch db) totalItems limit
      (runLoads db totalItems limit n)).1

theorem runLoads_invariant (db : List Post) (limit : Nat) (n : Nat) :
    (runLoads db db.length limit n).posts.length =
      min ((runLoads db db.length limit n).page * limit) db.length ∧
    (runLoads db db.length limit n).isLoading = false := by
  induction n with
  | zero =>
    refine ⟨?_, rfl⟩
    simp [runLoads, initialState, serverFetch]
  | succ n ih =>
    obtain ⟨hlen, hload⟩ := ih
    by_cases h : db.length ≤ (runLoads db db.length limit n).posts.length
    · have hstep : loadMorePosts (serverFetch db) db.length limit
          (runLoads db db.length limit n) = (runLoads db db.length limit n, none) := by
        unfold loadMorePosts
        rw [if_pos (Or.inr h)]
      rw [runLoads, hstep]
      exact ⟨hlen, hload⟩
    · have hguard : ¬((runLoads db db.length limit n).isLoading = true ∨
          (runLoads db db.length limit n).posts.length ≥ db.length) := by
        push_neg
        exact ⟨by simp [hload], by omega⟩
      rw [runLoads]
      unfold loadMorePosts
      rw [if_neg hguard]
      refine ⟨?_, rfl⟩
      have hmul : ((runLoads db db.length limit n).page + 1) * limit =
          (runLoads db db.length limit n).page * limit + limit := Nat.succ_mul _ _
      simp only [List.length_append, serverFetch, List.length_take,
        List.length_drop, loadMoreSkip, hmul]
      rw [hlen] at h ⊢
      generalize (runLoads db db.length limit n).page * limit = P at h ⊢
      omega

/-- A concrete collection of 12 items, matching the `total = 12` of the spec
scenario. -/
def demoDb : List Post :=
  (List.range 12).map (fun i => { id := i, title := "", body := "" })

/-- C2: in infinite mode the accumulated item count never exceeds `total`;
once `accumulated.length ≥ total` the loader is Exhausted and a trigger
performs no fetch and changes nothing.  Concretely, with `total = 12`,
`limit = 5` and an initial page of 5 items, two incremental loads reach
length 12 and a third visibility trigger issues no fetch and leaves the
accumulated list and the page counter unchanged. -/
theorem infinite_loader_bounded_by_total :
    (∀ (db : List Post) (limit n : Nat),
        (runLoads db db.length limit n).posts.length ≤ db.length) ∧
    (∀ (fetch : Nat → Nat → List Post) (totalItems limit : Nat) (s : LoaderState),
        totalItems ≤ s.posts.length →
        loadMorePosts fetch totalItems limit s = (s, none)) ∧
    ((runLoads demoDb 12 5 0).posts.length = 5 ∧
      (runLoads demoDb 12 5 1).posts.length = 10 ∧
      (runLoads demoDb 12 5 2).posts.length = 12 ∧
      loadMorePosts (serverFetch demoDb) 12 5 (runLoads demoDb 12 5 2) =
        (runLoads demoDb 12 5 2, none)) := by
  refine ⟨?_, ?_, by decide⟩
  · intro db limit n
    have h := (runLoads_invariant db limit n).1
    omega
  · intro fetch totalItems limit s h
    unfold loadMorePosts
    rw [if_pos (Or.inr h)]

theorem infinite_loader_bounded_by_total_witness :
    (12 : Nat) ≤ (runLoads demoDb 12 5 2).posts.length ∧
    loadMorePosts (serverFetch demoDb) 12 5 (runLoads demoDb 12 5 2) =
      (runLoads demoDb 12 5 2, none) :=
  ⟨by decide,
    infinite_loader_bounded_by_total.2.1 (serverFetch demoDb) 12 5
      (runLoads demoDb 12 5 2) (by decide)⟩

/-- From `page.tsx` line 22 in `getBlogPosts`:
`const skip = (page - 1) * limit`. -/
def getBlogPostsSkip (limit page : Int) : Int := (page - 1) * limit

/-- C6: for every `page ≥ 1` and `limit > 0`, the skip of the paged
data-source client, `(page − 1) × limit`, equals the skip the infinite loader
computes for the same page number, `page × limit − limit`. -/
theorem paged_and_infinite_skip_agree (page limit : Nat)
    (hp : 1 ≤ page) (_hl : 0 < limit) :
    getBlogPostsSkip (limit : Int) (page : Int) = (loadMoreSkip page limit : Int) := by
  unfold getBlogPostsSkip loadMoreSkip
  have h : limit ≤ page * limit := Nat.le_mul_of_pos_left limit hp
  rw [Nat.cast_sub h]
  push_cast
  ring

theorem paged_and_infinite_skip_agree_witness :
    (1 : Nat) ≤ 3 ∧ (0 : Nat) < 5 ∧
    getBlogPostsSkip ((5 : Nat) : Int) ((3 : Nat) : Int) = (loadMoreSkip 3 5 : Int) ∧
    getBlogPostsSkip 5 3 = 10 ∧ loadMoreSkip 3 5 = 10 :=
  ⟨by decide, by decide, paged_and_infinite_skip_agree 3 5 (by decide) (by decide),
    by decide, by decide⟩

/-- The client state `BlogPost` builds in infinite mode from the
server-rendered response: `useState(data.posts)`, `useState(false)`,
`useState(1)` — the page counter starts at 1 whatever URL page `data` was
fetched for. -/
def initBlogPostState (data : PostResponse) : LoaderState :=
  { posts := data.posts, isLoading := false, page := 1 }

/-- C9: the page counter of the loader is initialised to 1 regardless of the
address-bar page, so whenever the guard lets the first incremental fetch
happen it requests `skip = 2 × limit − limit = limit` (page 2), even when the
initially rendered items came from a URL page greater than 1. -/
theorem infinite_loader_restarts_from_page_two
    (data : PostResponse) (fetch : Nat → Nat → List Post) (totalItems limit : Nat)
    (h : data.posts.length < totalItems) :
    (initBlogPostState data).page = 1 ∧
    (loadMorePosts fetch totalItems limit (initBlogPostState data)).2 =
      some (limit, loadMoreSkip 2 limit) ∧
    loadMoreSkip 2 limit = limit := by
  refine ⟨rfl, ?_, by unfold loadMoreSkip; omega⟩
  unfold loadMorePosts initBlogPostState
  rw [if_neg (by simp; omega)]

/-- The response `getBlogPosts(5, 3)` yields over `demoDb`: the items at
offsets 10 and 11, i.e. URL page 3. -/
def demoResponsePage3 : PostResponse :=
  { posts := serverFetch demoDb 5 10, total := 12, limit := 5, skip := 10 }

theorem infinite_loader_restarts_from_page_two_witness :
    demoResponsePage3.posts.length < 12 ∧
    ((initBlogPostState demoResponsePage3).page = 1 ∧
      (loadMorePosts (serverFetch demoDb) 12 5
          (initBlogPostState demoResponsePage3)).2 = some (5, loadMoreSkip 2 5) ∧
      loadMoreSkip 2 5 = 5) :=
  ⟨by decide,
    infinite_loader_restarts_from_page_two demoResponsePage3
      (serverFetch demoDb) 12 5 (by decide)⟩

/-- Address-bar query parameters (`URLSearchParams`), modelled as a map from
parameter name to its value when present.  The routing/URL mechanism is an
external collaborator of the repository; the code uses only `get`,
`set(name, value)` and `delete(name)` on it. -/
abbrev SearchParams : Type := String → Option String

/-- Operation `URLSearchParams.set(name, value)`. -/
def SearchParams.set (ps : SearchParams) (name value : String) : SearchParams :=
  fun k => if k = name then some value else ps k

/-- Operation `URLSearchParams.delete(name)`. -/
def SearchParams.delete (ps : SearchParams) (name : String) : SearchParams :=
  fun k => if k = name then none else ps k

/-- From `page.tsx` line 39: the display mode derived from the address state. -/
def usePagination (ps : SearchParams) : Bool :=
  ps ("style") != some ("infinite")

/-- From `pagination-toggle.tsx`, `togglePaginationStyle`: set `style=infinite` when
currently paged, otherwise delete the `style` parameter. -/
def togglePaginationStyle (currentStyle : String) (ps : SearchParams) : SearchParams :=
  if currentStyle = "pagination" then ps.set ("style") ("infinite")
  else ps.delete ("style")

/-- The `currentStyle` prop `page.tsx` line 56 passes to the toggle:
`usePagination ? "pagination" : "infinite"`. -/
def currentStyleOf (ps : SearchParams) : String :=
  if usePagination ps then ("pagination") else ("infinite")

/-- One user click on the toggle, as rendered from address state `ps`. -/
def toggleStep (ps : SearchParams) : SearchParams :=
  togglePaginationStyle (currentStyleOf ps) ps

/-- C7: toggling the style twice returns any address state to its original
display mode, and each application leaves the `page` and `limit` parameters
untouched (only `style` is set or deleted). -/
theorem toggle_twice_restores_mode (ps : SearchParams) :
    usePagination (toggleStep (toggleStep ps)) = usePagination ps ∧
    toggleStep ps ("page") = ps ("page") ∧
    toggleStep ps ("limit") = ps ("limit") ∧
    toggleStep (toggleStep ps) ("page") = ps ("page") ∧
    toggleStep (toggleStep ps) ("limit") = ps ("limit") := by
  by_cases h : ps ("style") = some ("infinite")
  · simp [toggleStep, togglePaginationStyle, currentStyleOf, usePagination,
      SearchParams.set, SearchParams.delete, h]
  · have hb : (ps ("style") != some ("infinite")) = true := bne_iff_ne.mpr h
    simp [toggleStep, togglePaginationStyle, currentStyleOf, usePagination,
      SearchParams.set, SearchParams.delete, hb]

/-- The parameters limit captured by `Pagination`; `createQueryString` in
`pagination.tsx`: set the changed parameter and always preserve `limit`. -/
def createQueryString (ps : SearchParams) (limit : Int) (name value : String) :
    SearchParams :=
  let params := ps.set name value
  if name ≠ "limit" then params.set ("limit") (toString limit) else params

/-- From `pagination.tsx`, `navigateToPage`: `some` of the address state pushed to
the router, or `none` when the early return fired and no navigation was
issued (so the address state is untouched). -/
def navigateToPage (ps : SearchParams) (totalPages limit : Int) (page : Int) :
    Option SearchParams :=
  if page < 1 ∨ page > totalPages then none
  else some (createQueryString ps limit ("page") (toString page))

/-- C8: for every target page outside `[1, totalPages]`, navigation is a
silent no-op — no router push is issued, so the `page`, `limit` and `style`
parameters all stay as they are. -/
theorem navigateToPage_out_of_range_noop (ps : SearchParams)
    (totalPages limit page : Int) (h : page < 1 ∨ page > totalPages) :
    navigateToPage ps totalPages limit page = none := by
  unfold navigateToPage
  rw [if_pos h]

/-- The empty address state: no query parameters present. -/
def emptySearchParams : SearchParams := fun _ => none

theorem navigateToPage_out_of_range_noop_witness :
    (((0 : Int) < 1 ∨ (0 : Int) > 5) ∧
      navigateToPage emptySearchParams 5 5 0 = none) ∧
    (((6 : Int) < 1 ∨ (6 : Int) > 5) ∧
      navigateToPage emptySearchParams 5 5 6 = none) :=
  ⟨⟨by decide, navigateToPage_out_of_range_noop emptySearchParams 5 5 0 (by decide)⟩,
    ⟨by decide, navigateToPage_out_of_range_noop emptySearchParams 5 5 6 (by decide)⟩⟩

/-- A JavaScript number as it flows through the pagination parameters:
either an integer or `NaN` (what `parseInt` returns on non-numeric input).
All integer-valued arithmetic here is exact in doubles. -/
inductive JSNum where
  | nan
  | int (n : Int)
deriving DecidableEq

/-- JavaScript subtraction on these values: `NaN` propagates. -/
def JSNum.sub : JSNum → JSNum → JSNum
  | JSNum.int a, JSNum.int b => JSNum.int (a - b)
  | _, _ => JSNum.nan

/-- JavaScript multiplication on these values: `NaN` propagates. -/
def JSNum.mul : JSNum → JSNum → JSNum
  | JSNum.int a, JSNum.int b => JSNum.int (a * b)
  | _, _ => JSNum.nan

/-- How the value renders inside a template literal: `NaN` prints as
`"NaN"`. -/
def JSNum.toStr : JSNum → String
  | JSNum.nan => "NaN"
  | JSNum.int n => toString n

/-- Numeric value of a digit run. -/
def digitsVal (ds : List Char) : Nat :=
  ds.foldl (fun acc c => acc * 10 + (c.toNat - 48)) 0

/-- Split an optional leading sign: `true` means negative. -/
def splitSign : List Char → Bool × List Char
  | '-' :: rest => (true, rest)
  | '+' :: rest => (false, rest)
  | cs => (false, cs)

/-- Model of `parseInt(value, 10)`: skip leading spaces, take an optional sign and
the longest run of decimal digits; `NaN` when that run is empty, otherwise
the signed value of the run (trailing garbage ignored). -/
def parseIntJS (s : String) : JSNum :=
  let cs := s.data.dropWhile (fun c => c = ' ')
  let sc := splitSign cs
  let ds := sc.2.takeWhile (fun c => c.isDigit)
  if ds.isEmpty then JSNum.nan
  else if sc.1 then JSNum.int (-(digitsVal ds : Int))
  else JSNum.int (digitsVal ds)

/-- One value of the `searchParams` record passed to `PaginationExample`:
`string | string[] | undefined`. -/
inductive ParamValue where
  | str (s : String)
  | strList (l : List String)
  | undef
deriving DecidableEq

/-- The body of the `Object.entries(searchParams).forEach` in
`PaginationExample` (`page.tsx` lines 43-48): a `string` value under key
`page` or `limit` replaces the accumulator component with its `parseInt`;
everything else is skipped. -/
def extractStep (acc : JSNum × JSNum) (kv : String × ParamValue) : JSNum × JSNum :=
  match kv.2 with
  | ParamValue.str v =>
    let acc1 := if kv.1 = "page" then (parseIntJS v, acc.2) else acc
    if kv.1 = "limit" then (acc1.1, parseIntJS v) else acc1
  | _ => acc

/-- The `PaginationExample` parameter extraction: start from the defaults
`currentPage = 1`, `currentLimit = 5` and fold the entries of
`searchParams`. -/
def extractPageLimit (sp : List (String × ParamValue)) : JSNum × JSNum :=
  sp.foldl extractStep (JSNum.int 1, JSNum.int 5)

/-- From `page.tsx` line 22, on JavaScript numbers as modelled here:
`(page - 1) * limit`, with `NaN` propagating. -/
def getBlogPostsSkipJS (limit page : JSNum) : JSNum :=
  JSNum.mul (JSNum.sub page (JSNum.int 1)) limit

/-- From `page.tsx` line 25: the URL `getBlogPosts` fetches. -/
def getBlogPostsUrl (limit page : JSNum) : String :=
  "https://dummyjson.com/posts?limit=" ++ JSNum.toStr limit ++
    "&skip=" ++ JSNum.toStr (getBlogPostsSkipJS limit page)

theorem foldl_extractStep_fst (sp : List (String × ParamValue)) (acc : JSNum × JSNum)
    (h : ∀ v : String, ("page", ParamValue.str v) ∉ sp) :
    (sp.foldl extractStep acc).1 = acc.1 := by
  induction sp generalizing acc with
  | nil => rfl
  | cons kv rest ih =>
    rw [List.foldl_cons, ih _ (fun v hv => h v (List.mem_cons_of_mem _ hv))]
    obtain ⟨k, pv⟩ := kv
    cases pv with
    | str v =>
      have hk : k ≠ "page" := by
        intro hkk
        exact h v (by rw [hkk]; exact List.mem_cons_self _ _)
      simp only [extractStep, if_neg hk]
      split_ifs <;> rfl
    | strList l => rfl
    | undef => rfl

theorem foldl_extractStep_snd (sp : List (String × ParamValue)) (acc : JSNum × JSNum)
    (h : ∀ v : String, ("limit", ParamValue.str v) ∉ sp) :
    (sp.foldl extractStep acc).2 = acc.2 := by
  induction sp generalizing acc with
  | nil => rfl
  | cons kv rest ih =>
    rw [List.foldl_cons, ih _ (fun v hv => h v (List.mem_cons_of_mem _ hv))]
    obtain ⟨k, pv⟩ := kv
    cases pv with
    | str v =>
      have hk : k ≠ "limit" := by
        intro hkk
        exact h v (by rw [hkk]; exact List.mem_cons_self _ _)
      simp only [extractStep, if_neg hk]
      split_ifs <;> rfl
    | strList l => rfl
    | undef => rfl

/-- C10: the defaults `currentPage = 1` and `limit = 5` survive exactly when
the `page`/`limit` entries are absent or not single strings; a present string
value is parsed with `parseInt` and used unvalidated, so a non-numeric value
yields `NaN`, which flows into `skip = (page − 1) × limit` and into the fetch
URL instead of falling back to the default. -/
theorem searchParams_defaults_and_nan_flow :
    (∀ sp : List (String × ParamValue),
        (∀ v : String, ("page", ParamValue.str v) ∉ sp) →
        (extractPageLimit sp).1 = JSNum.int 1) ∧
    (∀ sp : List (String × ParamValue),
        (∀ v : String, ("limit", ParamValue.str v) ∉ sp) →
        (extractPageLimit sp).2 = JSNum.int 5) ∧
    (∀ (sp : List (String × ParamValue)) (v : String),
        (extractPageLimit (sp ++ [("page", ParamValue.str v)])).1 = parseIntJS v) ∧
    parseIntJS ("abc") = JSNum.nan ∧
    extractPageLimit [("page", ParamValue.str ("abc"))] = (JSNum.nan, JSNum.int 5) ∧
    getBlogPostsSkipJS (JSNum.int 5) JSNum.nan = JSNum.nan ∧
    getBlogPostsUrl (JSNum.int 5) JSNum.nan =
      "https://dummyjson.com/posts?limit=5&skip=NaN" := by
  refine ⟨?_, ?_, ?_, by decide, by decide, rfl, by decide⟩
  · intro sp h
    exact foldl_extractStep_fst sp _ h
  · intro sp h
    exact foldl_extractStep_snd sp _ h
  · intro sp v
    unfold extractPageLimit
    rw [List.foldl_append]
    simp [extractStep]

theorem searchParams_defaults_and_nan_flow_witness :
    (extractPageLimit
        [("page", ParamValue.strList ["2"]), ("limit", ParamValue.undef)]).1 =
      JSNum.int 1 ∧
    (extractPageLimit
        [("page", ParamValue.strList ["2"]), ("limit", ParamValue.undef)]).2 =
      JSNum.int 5 ∧
    (extractPageLimit
        ([("page", ParamValue.strList ["2"])] ++ [("page", ParamValue.str ("abc"))])).1 =
      parseIntJS ("abc") :=
  ⟨searchParams_defaults_and_nan_flow.1 _ (fun v hv => by simp at hv),
    searchParams_defaults_and_nan_flow.2.1 _ (fun v hv => by simp at hv),
    searchParams_defaults_and_nan_flow.2.2.1 _ ("abc")⟩
